import Mathlib

/-!
Verification of the face-tension-monitor core: signal extraction
(`src/face/computeSignals.ts`), the calibration session, the smile and
tension classifiers, and the detection state machine (`src/App.tsx`).

Numbers are idealised: landmark coordinates and derived signals are real
numbers (the extractor uses `Math.sqrt`), while the App-level pipeline,
whose arithmetic is ratios and comparisons of finite decimals, is embedded
over the rationals so that concrete runs are decidable.
-/

attribute [local semireducible] Rat.mul Rat.add Rat.inv Rat.sub Rat.ofScientific

set_option maxRecDepth 8000

namespace FaceTension

/-! ## Landmarks and the signal extractor (src/face/landmarks.ts, indices.ts, computeSignals.ts) -/

/-- Source type `Landmark = { x: number; y: number; z?: number }`. -/
structure Landmark where
  x : ℝ
  y : ℝ
  z : Option ℝ := none

/-- Function `dist2D`: planar Euclidean distance; `z` is ignored.
`Math.sqrt(dx*dx + dy*dy)`. -/
noncomputable def dist2D (a b : Landmark) : ℝ :=
  Real.sqrt ((a.x - b.x) * (a.x - b.x) + (a.y - b.y) * (a.y - b.y))

/-- The fixed anatomical index table `FACE_LM` (src/face/indices.ts). -/
structure FaceLM where
  leftFaceEdge : Nat
  rightFaceEdge : Nat
  leftEyeTop : Nat
  leftEyeBottom : Nat
  rightEyeTop : Nat
  rightEyeBottom : Nat
  leftInnerBrow : Nat
  rightInnerBrow : Nat
  leftMouthCorner : Nat
  rightMouthCorner : Nat
  upperLipCenter : Nat
  leftCheek : Nat
  rightCheek : Nat
  noseTip : Nat
  noseBridge : Nat

def FACE_LM : FaceLM where
  leftFaceEdge := 234
  rightFaceEdge := 454
  leftEyeTop := 159
  leftEyeBottom := 145
  rightEyeTop := 386
  rightEyeBottom := 374
  leftInnerBrow := 107
  rightInnerBrow := 336
  leftMouthCorner := 61
  rightMouthCorner := 291
  upperLipCenter := 13
  leftCheek := 50
  rightCheek := 280
  noseTip := 1
  noseBridge := 6

/-- Source type `Signals`: the six unitless ratios, over a coordinate field `α`
(`ℝ` for the extractor, `ℚ` for the decidable pipeline). -/
structure Signals (α : Type) where
  eyeOpenAvg : α
  browInnerDist : α
  mouthWidth : α
  mouthCornerLift : α
  cheekRaise : α
  headRotation : α
  deriving DecidableEq, Repr

/-- Function `computeSignals(landmarks)` (src/face/computeSignals.ts).

JavaScript indexing `landmarks[i]` past the end of the array yields
`undefined` and the subsequent member access inside `dist2D` throws a
`TypeError`; that crash is modelled as `Except.error ()`.  `Except.ok none`
is the soft `null` ("no signal") result, `Except.ok (some s)` a signal. -/
noncomputable def computeSignals (landmarks : List Landmark) :
    Except Unit (Option (Signals ℝ)) :=
  if landmarks.length = 0 then Except.ok none else
  match landmarks[FACE_LM.leftFaceEdge]?, landmarks[FACE_LM.rightFaceEdge]? with
  | some lEdge, some rEdge =>
    let faceWidth := dist2D lEdge rEdge
    if faceWidth = 0 then Except.ok none else
    match landmarks[FACE_LM.leftEyeTop]?, landmarks[FACE_LM.leftEyeBottom]?,
        landmarks[FACE_LM.rightEyeTop]?, landmarks[FACE_LM.rightEyeBottom]?,
        landmarks[FACE_LM.leftInnerBrow]?, landmarks[FACE_LM.rightInnerBrow]?,
        landmarks[FACE_LM.leftMouthCorner]?, landmarks[FACE_LM.rightMouthCorner]?,
        landmarks[FACE_LM.upperLipCenter]?, landmarks[FACE_LM.leftCheek]?,
        landmarks[FACE_LM.rightCheek]?, landmarks[FACE_LM.noseBridge]? with
    | some leftEyeTop, some leftEyeBottom, some rightEyeTop, some rightEyeBottom,
      some leftInnerBrow, some rightInnerBrow, some leftMouthCorner, some rightMouthCorner,
      some upperLipCenter, some leftCheek, some rightCheek, some noseBridge =>
      let leftEyeOpen := dist2D leftEyeTop leftEyeBottom / faceWidth
      let rightEyeOpen := dist2D rightEyeTop rightEyeBottom / faceWidth
      let browInnerDist := dist2D leftInnerBrow rightInnerBrow / faceWidth
      let mouthWidth := dist2D leftMouthCorner rightMouthCorner / faceWidth
      let upperLipY := upperLipCenter.y
      let leftCornerLift := upperLipY - leftMouthCorner.y
      let rightCornerLift := upperLipY - rightMouthCorner.y
      let mouthCornerLift := (leftCornerLift + rightCornerLift) / 2 / faceWidth
      let leftCheekDist := dist2D leftMouthCorner leftCheek
      let rightCheekDist := dist2D rightMouthCorner rightCheek
      let cheekRaise := (leftCheekDist + rightCheekDist) / 2 / faceWidth
      let noseToLeft := |noseBridge.x - lEdge.x|
      let noseToRight := |rEdge.x - noseBridge.x|
      let asymmetryRatio := if noseToRight > 0 then noseToLeft / noseToRight else 1
      let headRotation := ( asymmetryRatio - 1) / ( asymmetryRatio + 1)
      Except.ok (some
        { eyeOpenAvg := (leftEyeOpen + rightEyeOpen) / 2
          browInnerDist := browInnerDist
          mouthWidth := mouthWidth
          mouthCornerLift := mouthCornerLift
          cheekRaise := cheekRaise
          headRotation := headRotation })
    | _, _, _, _, _, _, _, _, _, _, _, _ => Except.error ()
  | _, _ => Except.error ()

/-! ## App constants (src/App.tsx lines 18-29) -/

def CALIBRATION_DURATION_MS : ℚ := 10000
def TENSION_ALERT_THRESHOLD_MS : ℚ := 3000
def SAMPLE_INTERVAL_MS : ℚ := 100
def TENSION_THRESHOLD : ℚ := 0.9
def SMILE_MOUTH_WIDTH_THRESHOLD : ℚ := 1.05
def SMILE_CORNER_LIFT_THRESHOLD : ℚ := 1.3
def SMILE_CHEEK_RAISE_THRESHOLD : ℚ := 0.95
def HEAD_ROTATION_THRESHOLD : ℚ := 0.5

/-- JavaScript `a || b` on numbers: returns `b` when `a` is falsy (`0`),
else `a`.  Used in `detectSmile` for the corner-lift fallback threshold. -/
def jsOrQ (a b : ℚ) : ℚ := if a = 0 then b else a

/-! ## Smile and tension classifiers (src/App.tsx lines 182-231) -/

/-- The three binary smile indicators built inside `detectSmile`
(src/App.tsx lines 199-205).  The corner-lift threshold is the JS
expression `neutral.mouthCornerLift * (SMILE_CORNER_LIFT_THRESHOLD - 1) || 0.002`. -/
def smileIndicators (signals neutral : Signals ℚ) : List Bool :=
  let mouthWidthRatio := signals.mouthWidth / neutral.mouthWidth
  let cornerLiftDelta := signals.mouthCornerLift - neutral.mouthCornerLift
  let cheekRaiseRatio := signals.cheekRaise / neutral.cheekRaise
  [ decide ( mouthWidthRatio > SMILE_MOUTH_WIDTH_THRESHOLD),
    decide (cornerLiftDelta >
      jsOrQ (neutral.mouthCornerLift * (SMILE_CORNER_LIFT_THRESHOLD - 1)) 0.002),
    decide ( cheekRaiseRatio < SMILE_CHEEK_RAISE_THRESHOLD) ]

/-- Result record of `detectSmile`. -/
structure SmileResult where
  isSmiling : Bool
  score : ℚ
  deriving DecidableEq, Repr

/-- Function `detectSmile(signals, neutral)` (src/App.tsx lines 182-209). -/
def detectSmile (signals neutral : Signals ℚ) : SmileResult :=
  let mouthWidthRatio := signals.mouthWidth / neutral.mouthWidth
  let mouthWidthScore := max 0 (( mouthWidthRatio - 1) * 10)
  let cornerLiftDelta := signals.mouthCornerLift - neutral.mouthCornerLift
  let cornerLiftScore := max 0 (cornerLiftDelta * 100)
  let cheekRaiseRatio := signals.cheekRaise / neutral.cheekRaise
  let cheekRaiseScore := max 0 ((1 - cheekRaiseRatio) * 10)
  let score := mouthWidthScore * 0.4 + cornerLiftScore * 0.35 + cheekRaiseScore * 0.25
  let isSmiling :=
    decide (score > 0.3) || decide (((smileIndicators signals neutral).filter id).length ≥ 2)
  { isSmiling := isSmiling, score := min 1 score }

/-- The tension comparison of `checkTension` (src/App.tsx lines 230-231):
the right operand of `!smiling && (...)`, i.e. the pure tension classifier. -/
def isTenseRaw (signals neutral : Signals ℚ) : Bool :=
  decide (signals.eyeOpenAvg < neutral.eyeOpenAvg * TENSION_THRESHOLD) ||
  decide (signals.browInnerDist < neutral.browInnerDist * TENSION_THRESHOLD)

/-! ## Pipeline state (the mutable refs of src/App.tsx) -/

/-- The mutable refs of `App` that the core logic reads and writes:
`isCalibrationRef`, `calibrationEndTimeRef`, `samplesRef`,
`lastSampleTimeRef`, `neutralRef`, `hasCalibratedRef`, `tensionStartTimeRef`. -/
structure PipeState where
  isCalibration : Bool
  calibrationEndTime : Option ℚ
  samples : List (Signals ℚ)
  lastSampleTime : ℚ
  neutral : Option (Signals ℚ)
  hasCalibrated : Bool
  tensionStart : Option ℚ
  deriving DecidableEq, Repr

/-- Initial values of the refs on mount. -/
def initState : PipeState where
  isCalibration := false
  calibrationEndTime := none
  samples := []
  lastSampleTime := 0
  neutral := none
  hasCalibrated := false
  tensionStart := none

/-- Function `startCalibration()` (src/App.tsx lines 331-343).  Note: it does not
touch `tensionStartTimeRef`. -/
def startCalibration (st : PipeState) (now : ℚ) : PipeState :=
  { st with
    samples := []
    lastSampleTime := 0
    neutral := none
    hasCalibrated := false
    isCalibration := true
    calibrationEndTime := some (now + CALIBRATION_DURATION_MS) }

/-- Function `handleCalibrationSample(signals, now)` (src/App.tsx lines 134-145).
`lastSampleTimeRef` is updated whenever the interval check passes, whether
or not the head-rotation gate admits the sample. -/
def handleCalibrationSample (st : PipeState) (signals : Signals ℚ) (now : ℚ) : PipeState :=
  if now - st.lastSampleTime ≥ SAMPLE_INTERVAL_MS then
    let st1 :=
      if |signals.headRotation| ≤ HEAD_ROTATION_THRESHOLD then
        { st with samples := st.samples ++ [signals] }
      else st
    { st1 with lastSampleTime := now }
  else st

/-- Function `finalizeCalibration()` (src/App.tsx lines 147-180).  Componentwise
`reduce`-mean over the accepted samples when there is at least one. -/
def finalizeCalibration (st : PipeState) : PipeState :=
  let st1 := { st with isCalibration := false, calibrationEndTime := none }
  let samples := st1.samples
  if samples.length > 0 then
    let n : ℚ := samples.length
    let eyeMean := (samples.foldl (fun sum s => sum + s.eyeOpenAvg) 0) / n
    let browMean := (samples.foldl (fun sum s => sum + s.browInnerDist) 0) / n
    let mouthMean := (samples.foldl (fun sum s => sum + s.mouthWidth) 0) / n
    let cornerLiftMean := (samples.foldl (fun sum s => sum + s.mouthCornerLift) 0) / n
    let cheekRaiseMean := (samples.foldl (fun sum s => sum + s.cheekRaise) 0) / n
    let headRotationMean := (samples.foldl (fun sum s => sum + s.headRotation) 0) / n
    { st1 with
      neutral := some
        { eyeOpenAvg := eyeMean
          browInnerDist := browMean
          mouthWidth := mouthMean
          mouthCornerLift := cornerLiftMean
          cheekRaise := cheekRaiseMean
          headRotation := headRotationMean }
      hasCalibrated := true
      samples := [] }
  else { st1 with samples := [] }

/-- Function `checkTension(signals, now)` (src/App.tsx lines 211-248).  Returns the
new state and whether `triggerTensionAlert()` was called (gated on the
`isAlertEnabled` switch). -/
def checkTension (st : PipeState) (alertEnabled : Bool) (signals : Signals ℚ) (now : ℚ) :
    PipeState × Bool :=
  match st.neutral with
  | none => (st, false)
  | some neutral =>
    if |signals.headRotation| > HEAD_ROTATION_THRESHOLD then
      ({ st with tensionStart := none }, false)
    else
      let sm := detectSmile signals neutral
      let isTense := !sm.isSmiling && isTenseRaw signals neutral
      if isTense then
        match st.tensionStart with
        | none => ({ st with tensionStart := some now }, false)
        | some t0 =>
          if now - t0 ≥ TENSION_ALERT_THRESHOLD_MS then
            ({ st with tensionStart := none }, alertEnabled)
          else (st, false)
      else ({ st with tensionStart := none }, false)

/-- One iteration of the detection loop body for a delivered frame
(src/App.tsx lines 281-315), restricted to the core logic: calibration
sampling and finalization, then tension checking once calibrated.
`signalsOpt = none` models a frame with no face or no signal. -/
def loopStep (alertEnabled : Bool) (st : PipeState) (signalsOpt : Option (Signals ℚ))
    (now : ℚ) : PipeState × Bool :=
  match signalsOpt with
  | none => (st, false)
  | some signals =>
    let st1 :=
      if st.isCalibration then
        let st2 := handleCalibrationSample st signals now
        match st2.calibrationEndTime with
        | some endTime => if now ≥ endTime then finalizeCalibration st2 else st2
        | none => st2
      else st
    if st1.hasCalibrated then checkTension st1 alertEnabled signals now
    else (st1, false)

/-- An externally driven event: a frame tick, or the user pressing the
Calibrate button. -/
inductive PEvent where
  | tick (signalsOpt : Option (Signals ℚ)) (now : ℚ)
  | startCal (now : ℚ)
  deriving DecidableEq, Repr

/-- One pipeline step for one event. -/
def pipeStep (alertEnabled : Bool) (st : PipeState) (e : PEvent) : PipeState × Bool :=
  match e with
  | .tick so now => loopStep alertEnabled st so now
  | .startCal now => (startCalibration st now, false)

/-- Run the pipeline over a list of events, collecting the timestamps of
ticks on which an alert fired. -/
def runPipeline (alertEnabled : Bool) (st : PipeState) : List PEvent → PipeState × List ℚ
  | [] => (st, [])
  | e :: es =>
    let r := pipeStep alertEnabled st e
    let rest := runPipeline alertEnabled r.1 es
    (rest.1,
      (match e with
        | .tick _ now => if r.2 then [now] else []
        | .startCal _ => []) ++ rest.2)

/-- Run the detection state machine alone over a list of (signal, time)
ticks, collecting alert timestamps. -/
def runDetect (alertEnabled : Bool) (st : PipeState) :
    List (Signals ℚ × ℚ) → PipeState × List ℚ
  | [] => (st, [])
  | t :: ts =>
    let r := checkTension st alertEnabled t.1 t.2
    let rest := runDetect alertEnabled r.1 ts
    (rest.1, (if r.2 then [t.2] else []) ++ rest.2)

/-- Feed a list of (signal, time) offers to `handleCalibrationSample`. -/
def runCalibOffers (st : PipeState) : List (Signals ℚ × ℚ) → PipeState
  | [] => st
  | o :: os => runCalibOffers (handleCalibrationSample st o.1 o.2) os

/-! ## Concrete signals and runs used by counterexamples and witnesses -/

/-- A neutral signal: eyes open 1, brows 1, mouth 1, corners level, cheeks 1,
facing forward. -/
def neutralSig : Signals ℚ := ⟨1, 1, 1, 0, 1, 0⟩

/-- A tense signal relative to `neutralSig`: eye openness halved. -/
def tenseSig : Signals ℚ := ⟨1/2, 1, 1, 0, 1, 0⟩

/-- An in-gate calibration sample (facing forward) with eye openness `i`. -/
def calibSampleEye (i : ℚ) : Signals ℚ := ⟨i, 1, 1, 0, 1, 0⟩

/-- An out-of-gate sample: head rotation 0.6 exceeds the 0.5 gate. -/
def turnedSample : Signals ℚ := ⟨1, 1, 1, 0, 1, 3/5⟩

/-- Live/baseline pair with a negative baseline corner lift, exercising the
JS `||` fallback in the corner-lift indicator. -/
def cornerLiftLive : Signals ℚ := ⟨1, 1, 1, -11/1000, 1, 0⟩

def cornerLiftBase : Signals ℚ := ⟨1, 1, 1, -1/100, 1, 0⟩

/-- Live signal with mouth-width ratio 1.1 and corner lift just above the
0.002 fallback threshold, relative to `neutralSig`. -/
def smileLive : Signals ℚ := ⟨1, 1, 11/10, 3/1000, 1, 0⟩

/-- Event sequence exhibiting the stale tension accumulator: calibrate,
start accumulating tension, re-calibrate (which clears the baseline but not
`tensionStartTimeRef`), and deliver a tense tick when the second calibration
finalizes. -/
def staleRun : List PEvent :=
  [ .startCal 0,
    .tick (some neutralSig) 100,
    .tick (some neutralSig) 10000,
    .tick (some tenseSig) 10100,
    .startCal 10200,
    .tick (some neutralSig) 10300,
    .tick (some tenseSig) 20200 ]

/-- The origin landmark. -/
def ptZero : Landmark := ⟨0, 0, none⟩

/-- A landmark at x = 1 on the horizontal axis. -/
def ptOne : Landmark := ⟨1, 0, none⟩

/-- A list of 455 landmarks: every index below 454 at the origin, the right face edge
(index 454) at (1,0).  The nose bridge (index 6) coincides with the left
face edge (index 234), so `noseToLeft = 0` while `noseToRight = 1`. -/
def headCexList : List Landmark := List.replicate 454 ptZero ++ [ptOne]

/-- The signal vector `computeSignals` produces on `headCexList`: all
ratios zero and head rotation exactly -1. -/
def headCexSignals : Signals ℝ := ⟨0, 0, 0, 0, 0, -1⟩

/-- Five in-gate offers interleaved with five out-of-gate offers. -/
def interleavedOffers : List (Signals ℚ × ℚ) :=
  [ (calibSampleEye 1, 100), (turnedSample, 200), (calibSampleEye 2, 250),
    (turnedSample, 350), (calibSampleEye 3, 400), (turnedSample, 500),
    (calibSampleEye 4, 550), (turnedSample, 650), (calibSampleEye 5, 700),
    (turnedSample, 800) ]

/-- The same five in-gate offers alone, at the same times. -/
def inGateOffers : List (Signals ℚ × ℚ) :=
  [ (calibSampleEye 1, 100), (calibSampleEye 2, 250), (calibSampleEye 3, 400),
    (calibSampleEye 4, 550), (calibSampleEye 5, 700) ]

/-! ## Step lemmas for `checkTension` -/

/-- A tense tick with no accumulation in progress starts accumulating at `now`. -/
theorem checkTension_tense_start (st : PipeState) (A : Bool) (s n : Signals ℚ) (now : ℚ)
    (hn : st.neutral = some n) (h0 : st.tensionStart = none)
    (hhead : |s.headRotation| ≤ HEAD_ROTATION_THRESHOLD)
    (hsm : (detectSmile s n).isSmiling = false)
    (ht : isTenseRaw s n = true) :
    checkTension st A s now = ({ st with tensionStart := some now }, false) := by
  simp [checkTension, hn, h0, hsm, ht, not_lt.mpr hhead]

/-- A tense tick before the sustain threshold leaves the state unchanged. -/
theorem checkTension_tense_hold (st : PipeState) (A : Bool) (s n : Signals ℚ) (now t0 : ℚ)
    (hn : st.neutral = some n) (h0 : st.tensionStart = some t0)
    (hhead : |s.headRotation| ≤ HEAD_ROTATION_THRESHOLD)
    (hsm : (detectSmile s n).isSmiling = false)
    (ht : isTenseRaw s n = true)
    (hlt : now - t0 < TENSION_ALERT_THRESHOLD_MS) :
    checkTension st A s now = (st, false) := by
  simp [checkTension, hn, h0, hsm, ht, not_lt.mpr hhead, not_le.mpr hlt]

/-- A tense tick at or past the sustain threshold fires (when alerts are
enabled) and resets the accumulator. -/
theorem checkTension_tense_fire (st : PipeState) (A : Bool) (s n : Signals ℚ) (now t0 : ℚ)
    (hn : st.neutral = some n) (h0 : st.tensionStart = some t0)
    (hhead : |s.headRotation| ≤ HEAD_ROTATION_THRESHOLD)
    (hsm : (detectSmile s n).isSmiling = false)
    (ht : isTenseRaw s n = true)
    (hge : now - t0 ≥ TENSION_ALERT_THRESHOLD_MS) :
    checkTension st A s now = ({ st with tensionStart := none }, A) := by
  simp [checkTension, hn, h0, hsm, ht, not_lt.mpr hhead, hge]

/-- A head-turned, smiling, or non-tense tick resets the accumulator and
emits nothing. -/
theorem checkTension_reset (st : PipeState) (A : Bool) (s n : Signals ℚ) (now : ℚ)
    (hn : st.neutral = some n)
    (h : |s.headRotation| > HEAD_ROTATION_THRESHOLD ∨ (detectSmile s n).isSmiling = true ∨
      isTenseRaw s n = false) :
    checkTension st A s now = ({ st with tensionStart := none }, false) := by
  rcases h with h | h | h
  · simp [checkTension, hn, h]
  · by_cases hh : |s.headRotation| > HEAD_ROTATION_THRESHOLD
    · simp [checkTension, hn, hh]
    · simp [checkTension, hn, hh, h]
  · by_cases hh : |s.headRotation| > HEAD_ROTATION_THRESHOLD
    · simp [checkTension, hn, hh]
    · simp [checkTension, hn, hh, h]

/-- Running held tense ticks that all stay below the sustain threshold
leaves the state untouched and fires nothing. -/
theorem runDetect_hold (A : Bool) (st : PipeState) (n s : Signals ℚ) (t0 : ℚ) (pre : List ℚ)
    (hn : st.neutral = some n) (h0 : st.tensionStart = some t0)
    (hhead : |s.headRotation| ≤ HEAD_ROTATION_THRESHOLD)
    (hsm : (detectSmile s n).isSmiling = false)
    (ht : isTenseRaw s n = true)
    (hpre : ∀ t ∈ pre, t - t0 < TENSION_ALERT_THRESHOLD_MS) :
    runDetect A st (pre.map fun t => (s, t)) = (st, []) := by
  induction pre with
  | nil => simp [runDetect]
  | cons a as ih =>
    have ha : checkTension st A s a = (st, false) :=
      checkTension_tense_hold st A s n a t0 hn h0 hhead hsm ht (hpre a (by simp))
    have ihr := ih (fun t htm => hpre t (by simp [htm]))
    simp [runDetect, ha, ihr]

/-- Running `runDetect` over an appended list splits into two runs. -/
theorem runDetect_append (A : Bool) (st : PipeState) (xs ys : List (Signals ℚ × ℚ)) :
    runDetect A st (xs ++ ys) =
      ((runDetect A (runDetect A st xs).1 ys).1,
       (runDetect A st xs).2 ++ (runDetect A (runDetect A st xs).1 ys).2) := by
  induction xs generalizing st with
  | nil => simp [runDetect]
  | cons a as ih => simp [runDetect, ih]

/-! ## Claim C1 -/

/-- C1: with a baseline present and the machine idle, a tense signal
(classified not smiling, not head-turned) held over ticks `t0, pre…, tk`
where every `pre` tick is within `TENSION_ALERT_THRESHOLD_MS` of the
accumulation start `t0` and `tk` is the first tick at or past it, fires
exactly one alert, at `tk`, and resets the state to idle; no alert fires
before `tk`; and any single head-turned, smiling, or non-tense tick resets
the accumulator so a fresh sustained run is required. -/
theorem detection_fires_once_at_first_crossing
    (st : PipeState) (n s : Signals ℚ) (t0 tk : ℚ) (pre : List ℚ)
    (hn : st.neutral = some n) (h0 : st.tensionStart = none)
    (hhead : |s.headRotation| ≤ HEAD_ROTATION_THRESHOLD)
    (hsm : (detectSmile s n).isSmiling = false)
    (ht : isTenseRaw s n = true)
    (hpre : ∀ t ∈ pre, t - t0 < TENSION_ALERT_THRESHOLD_MS)
    (hk : tk - t0 ≥ TENSION_ALERT_THRESHOLD_MS) :
    (runDetect true st (((t0 :: pre) ++ [tk]).map fun t => (s, t))).2 = [tk] ∧
    (runDetect true st (((t0 :: pre) ++ [tk]).map fun t => (s, t))).1.tensionStart = none ∧
    (runDetect true st ((t0 :: pre).map fun t => (s, t))).2 = [] ∧
    (∀ (st1 : PipeState) (s1 : Signals ℚ) (now : ℚ), st1.neutral = some n →
      (|s1.headRotation| > HEAD_ROTATION_THRESHOLD ∨ (detectSmile s1 n).isSmiling = true ∨
        isTenseRaw s1 n = false) →
      (checkTension st1 true s1 now).1.tensionStart = none ∧
      (checkTension st1 true s1 now).2 = false) := by
  have hstep0 : checkTension st true s t0 = ({ st with tensionStart := some t0 }, false) :=
    checkTension_tense_start st true s n t0 hn h0 hhead hsm ht
  have hn1 : ({ st with tensionStart := some t0 } : PipeState).neutral = some n := hn
  have hhold : runDetect true { st with tensionStart := some t0 } (pre.map fun t => (s, t)) =
      ({ st with tensionStart := some t0 }, []) :=
    runDetect_hold true _ n s t0 pre hn1 rfl hhead hsm ht hpre
  have hfire : checkTension { st with tensionStart := some t0 } true s tk =
      ({ st with tensionStart := none }, true) :=
    checkTension_tense_fire _ true s n tk t0 hn1 rfl hhead hsm ht hk
  refine ⟨?_, ?_, ?_, ?_⟩
  · simp [runDetect, hstep0, List.map_append, runDetect_append, hhold, hfire]
  · simp [runDetect, hstep0, List.map_append, runDetect_append, hhold, hfire]
  · simp [runDetect, hstep0, hhold]
  · intro st1 s1 now hn1' hcase
    rw [checkTension_reset st1 true s1 n now hn1' hcase]
    exact ⟨rfl, rfl⟩

/-- C1 witness: baseline `neutralSig`, tense ticks at 0, 1000, 2000, 3000 ms
fire exactly one alert, at 3000 ms. -/
theorem detection_fires_once_witness :
    (runDetect true { initState with neutral := some neutralSig }
      ((((0:ℚ) :: [1000, 2000]) ++ [3000]).map fun t => (tenseSig, t))).2 = [3000] :=
  (detection_fires_once_at_first_crossing
    { initState with neutral := some neutralSig } neutralSig tenseSig 0 3000 [1000, 2000]
    rfl rfl (by decide) (by decide) (by decide) (by decide) (by decide)).1

/-! ## Claim C2 -/

/-- C2: the claimed invariant "no baseline implies the detection machine is
idle" fails on the code, and with it the consequence that the first alert
after a calibration comes only from tension accumulated after it.
`startCalibration` clears the baseline but not `tensionStartTimeRef`: after
`staleRun.take 5` (calibrate, accumulate tension at 10100 ms, re-calibrate
at 10200 ms) the pipeline has no baseline yet `tensionStart = some 10100`,
and the full run fires its alert at 20200 ms — the very tick on which the
second calibration finalizes, with no post-calibration sustained tension. -/
theorem stale_tension_start_alert_bug :
    (runPipeline true initState (staleRun.take 5)).1.neutral = none ∧
    (runPipeline true initState (staleRun.take 5)).1.tensionStart = some 10100 ∧
    (runPipeline true initState staleRun).2 = [20200] ∧
    (runPipeline true initState staleRun).1.hasCalibrated = true := by
  decide

/-! ## Claim C3 -/

/-- C3 counterexample: with baseline `mouthCornerLift = -0.01` and live
corner-lift delta `-0.001`, the code's corner-lift indicator (JS `||`
fallback) is true, but the claimed `max(baseline.mouthCornerLift × 0.3,
0.002)` threshold would make it false. -/
theorem cornerLift_indicator_not_max_rule :
    (smileIndicators cornerLiftLive cornerLiftBase).getD 1 false = true ∧
    ¬(cornerLiftLive.mouthCornerLift - cornerLiftBase.mouthCornerLift >
        max (cornerLiftBase.mouthCornerLift * 0.3) 0.002) := by
  decide

/-- C3 amended: the three binary indicators are exactly
`mouthWidthRatio > 1.05`, `cornerLiftDelta > T`, and
`cheekRaiseRatio < 0.95`, where `T` is `baseline.mouthCornerLift × 0.3`
unless that product is zero, in which case `T = 0.002` (JavaScript `||`
fallback, not a max). -/
theorem smileIndicators_characterization (s n : Signals ℚ) :
    ((smileIndicators s n).getD 0 false = true ↔
      s.mouthWidth / n.mouthWidth > 1.05) ∧
    ((smileIndicators s n).getD 1 false = true ↔
      s.mouthCornerLift - n.mouthCornerLift >
        (if n.mouthCornerLift * 0.3 = 0 then 0.002 else n.mouthCornerLift * 0.3)) ∧
    ((smileIndicators s n).getD 2 false = true ↔
      s.cheekRaise / n.cheekRaise < 0.95) := by
  refine ⟨?_, ?_, ?_⟩ <;>
    norm_num [smileIndicators, jsOrQ, SMILE_MOUTH_WIDTH_THRESHOLD,
      SMILE_CORNER_LIFT_THRESHOLD, SMILE_CHEEK_RAISE_THRESHOLD]

/-! ## Claim C4 -/

/-- C4 counterexample: interleaving five out-of-gate samples (|headRotation|
= 0.6 > 0.5) among five in-gate samples changes the finalized baseline,
because an out-of-gate offer that passes the interval check still advances
`lastSampleTimeRef` and so suppresses later in-gate offers. -/
theorem calibration_interleaving_changes_baseline :
    (finalizeCalibration (runCalibOffers initState interleavedOffers)).neutral ≠
      (finalizeCalibration (runCalibOffers initState inGateOffers)).neutral ∧
    (∀ o ∈ inGateOffers, |o.1.headRotation| ≤ HEAD_ROTATION_THRESHOLD) ∧
    |turnedSample.headRotation| > HEAD_ROTATION_THRESHOLD := by
  decide

/-- C4 amended: an offer is accepted into the sample list iff at least
`SAMPLE_INTERVAL_MS` has elapsed since the last offer that passed the
interval check (not the last accepted sample) and `|headRotation| ≤ 0.5`;
an offer passing the interval check but failing the head gate contributes
no sample yet still resets the throttle clock; an offer failing the
interval check changes nothing. -/
theorem handleCalibrationSample_cases (st : PipeState) (s : Signals ℚ) (now : ℚ) :
    (now - st.lastSampleTime ≥ SAMPLE_INTERVAL_MS →
      |s.headRotation| ≤ HEAD_ROTATION_THRESHOLD →
      handleCalibrationSample st s now =
        { st with samples := st.samples ++ [s], lastSampleTime := now }) ∧
    (now - st.lastSampleTime ≥ SAMPLE_INTERVAL_MS →
      ¬(|s.headRotation| ≤ HEAD_ROTATION_THRESHOLD) →
      handleCalibrationSample st s now = { st with lastSampleTime := now }) ∧
    (¬(now - st.lastSampleTime ≥ SAMPLE_INTERVAL_MS) →
      handleCalibrationSample st s now = st) ∧
    ((handleCalibrationSample st s now).samples ≠ st.samples ↔
      now - st.lastSampleTime ≥ SAMPLE_INTERVAL_MS ∧
        |s.headRotation| ≤ HEAD_ROTATION_THRESHOLD) := by
  by_cases h1 : now - st.lastSampleTime ≥ SAMPLE_INTERVAL_MS <;>
    by_cases h2 : |s.headRotation| ≤ HEAD_ROTATION_THRESHOLD <;>
    simp [handleCalibrationSample, h1, h2]

/-- C4 witness: the first in-gate offer at 100 ms is accepted. -/
theorem handleCalibrationSample_cases_witness :
    handleCalibrationSample initState (calibSampleEye 1) 100 =
      { initState with
          samples := initState.samples ++ [calibSampleEye 1]
          lastSampleTime := 100 } :=
  (handleCalibrationSample_cases initState (calibSampleEye 1) 100).1 (by decide) (by decide)

/-! ## Claim C5 -/

/-- C5: the tension comparison is exactly the disjunction
`eyeOpenAvg < baseline × 0.9 ∨ browInnerDist < baseline × 0.9`, and at
baseline eye openness 0.10 with equal (nonnegative) brow distances, live
0.089 is tense while live 0.091 is not. -/
theorem isTenseRaw_iff_disjunction (s n : Signals ℚ)
    (mw mcl cr hr b : ℚ) (hb : 0 ≤ b) :
    (isTenseRaw s n = true ↔
      (s.eyeOpenAvg < n.eyeOpenAvg * TENSION_THRESHOLD ∨
       s.browInnerDist < n.browInnerDist * TENSION_THRESHOLD)) ∧
    isTenseRaw ⟨89/1000, b, mw, mcl, cr, hr⟩ ⟨1/10, b, mw, mcl, cr, hr⟩ = true ∧
    isTenseRaw ⟨91/1000, b, mw, mcl, cr, hr⟩ ⟨1/10, b, mw, mcl, cr, hr⟩ = false := by
  refine ⟨by simp [isTenseRaw], ?_, ?_⟩
  · simp only [isTenseRaw, Bool.or_eq_true, decide_eq_true_iff]
    left
    norm_num [TENSION_THRESHOLD]
  · simp only [isTenseRaw, Bool.or_eq_false_iff, decide_eq_false_iff_not, not_lt]
    constructor
    · norm_num [TENSION_THRESHOLD]
    · norm_num [TENSION_THRESHOLD]
      nlinarith

/-- C5 witness: the boundary instances at brow distance 1/20. -/
theorem isTenseRaw_iff_disjunction_witness :
    isTenseRaw ⟨89/1000, 1/20, 1, 0, 1, 0⟩ ⟨1/10, 1/20, 1, 0, 1, 0⟩ = true ∧
    isTenseRaw ⟨91/1000, 1/20, 1, 0, 1, 0⟩ ⟨1/10, 1/20, 1, 0, 1, 0⟩ = false :=
  ⟨(isTenseRaw_iff_disjunction neutralSig neutralSig 1 0 1 0 (1/20) (by decide)).2.1,
   (isTenseRaw_iff_disjunction neutralSig neutralSig 1 0 1 0 (1/20) (by decide)).2.2⟩

/-! ## Claim C8 -/

/-- Folding `fun sum x => sum + f x` is summation of the mapped list. -/
theorem foldl_add_eq_sum {α : Type} (f : α → ℚ) (l : List α) (init : ℚ) :
    l.foldl (fun sum x => sum + f x) init = init + (l.map f).sum := by
  induction l generalizing init with
  | nil => simp
  | cons a t ih => simp [ih, add_assoc]

/-- C8: finalizing a session with at least one accepted sample produces the
componentwise arithmetic mean of the samples as baseline (and marks the
pipeline calibrated); in particular `N ≥ 1` copies of one signal finalize
to that signal. -/
theorem finalizeCalibration_mean (st : PipeState) (h : st.samples ≠ [])
    (s : Signals ℚ) (N : ℕ) (hN : 1 ≤ N) :
    (finalizeCalibration st).neutral = some
      { eyeOpenAvg := (st.samples.map Signals.eyeOpenAvg).sum / st.samples.length
        browInnerDist := (st.samples.map Signals.browInnerDist).sum / st.samples.length
        mouthWidth := (st.samples.map Signals.mouthWidth).sum / st.samples.length
        mouthCornerLift := (st.samples.map Signals.mouthCornerLift).sum / st.samples.length
        cheekRaise := (st.samples.map Signals.cheekRaise).sum / st.samples.length
        headRotation := (st.samples.map Signals.headRotation).sum / st.samples.length } ∧
    (finalizeCalibration st).hasCalibrated = true ∧
    (finalizeCalibration { st with samples := List.replicate N s }).neutral = some s := by
  have hlen : 0 < st.samples.length := List.length_pos.mpr h
  have hNpos : (0:ℚ) < (N:ℚ) := by exact_mod_cast Nat.lt_of_lt_of_le Nat.zero_lt_one hN
  refine ⟨?_, ?_, ?_⟩
  · simp [finalizeCalibration, hlen, foldl_add_eq_sum]
  · simp [finalizeCalibration, hlen]
  · have hrep : (0:ℕ) < (List.replicate N s).length := by
      simp [Nat.lt_of_lt_of_le Nat.zero_lt_one hN]
    simp only [finalizeCalibration, hrep, if_pos, foldl_add_eq_sum]
    simp [List.map_replicate, List.sum_replicate, nsmul_eq_mul,
      mul_div_assoc, mul_div_cancel_left₀, hNpos.ne']

/-- C8 witness: three copies of `calibSampleEye 1` finalize to it. -/
theorem finalizeCalibration_mean_witness :
    (finalizeCalibration
      { { initState with samples := [calibSampleEye 1] } with
        samples := List.replicate 3 (calibSampleEye 1) }).neutral =
      some (calibSampleEye 1) :=
  (finalizeCalibration_mean { initState with samples := [calibSampleEye 1] }
    (by simp) (calibSampleEye 1) 3 (by decide)).2.2

/-! ## Claim C9 -/

/-- C9: the smile score is the claimed clamp to [0,1] of the weighted sum
(the lower clamp is redundant because each component score is already
nonnegative), `isSmiling` is the OR of `score > 0.3` with the 2-of-3
indicator count, and mouth-width ratio 1.1 together with a true corner-lift
indicator forces `isSmiling` regardless of the weighted score. -/
theorem detectSmile_score_and_or_rule (s n : Signals ℚ) :
    (detectSmile s n).score =
      max 0 (min 1 (0.4 * max 0 ((s.mouthWidth / n.mouthWidth - 1) * 10) +
        0.35 * max 0 ((s.mouthCornerLift - n.mouthCornerLift) * 100) +
        0.25 * max 0 ((1 - s.cheekRaise / n.cheekRaise) * 10))) ∧
    0 ≤ (detectSmile s n).score ∧ (detectSmile s n).score ≤ 1 ∧
    ((detectSmile s n).isSmiling = true ↔
      0.4 * max 0 ((s.mouthWidth / n.mouthWidth - 1) * 10) +
        0.35 * max 0 ((s.mouthCornerLift - n.mouthCornerLift) * 100) +
        0.25 * max 0 ((1 - s.cheekRaise / n.cheekRaise) * 10) > 0.3 ∨
      ((smileIndicators s n).filter id).length ≥ 2) ∧
    (s.mouthWidth / n.mouthWidth = 1.1 →
      (smileIndicators s n).getD 1 false = true →
      (detectSmile s n).isSmiling = true) := by
  set mws := max 0 ((s.mouthWidth / n.mouthWidth - 1) * 10) with hmws
  set cls := max 0 ((s.mouthCornerLift - n.mouthCornerLift) * 100) with hcls
  set crs := max 0 ((1 - s.cheekRaise / n.cheekRaise) * 10) with hcrs
  have hmws0 : 0 ≤ mws := le_max_left _ _
  have hcls0 : 0 ≤ cls := le_max_left _ _
  have hcrs0 : 0 ≤ crs := le_max_left _ _
  have hw0 : 0 ≤ 0.4 * mws + 0.35 * cls + 0.25 * crs := by positivity
  have hcomm : mws * 0.4 + cls * 0.35 + crs * 0.25 =
      0.4 * mws + 0.35 * cls + 0.25 * crs := by ring
  have hscore : (detectSmile s n).score = min 1 (0.4 * mws + 0.35 * cls + 0.25 * crs) := by
    simp only [detectSmile, ← hmws, ← hcls, ← hcrs, hcomm]
  refine ⟨?_, ?_, ?_, ?_, ?_⟩
  · rw [hscore, max_eq_right (le_min zero_le_one hw0)]
  · rw [hscore]; exact le_min zero_le_one hw0
  · rw [hscore]; exact min_le_left _ _
  · simp only [detectSmile, ← hmws, ← hcls, ← hcrs, hcomm, Bool.or_eq_true,
      decide_eq_true_iff]
  · intro hmw hind
    simp only [detectSmile, Bool.or_eq_true, decide_eq_true_iff]
    right
    have h0 : (smileIndicators s n).getD 0 false = true := by
      simp [smileIndicators, hmw, SMILE_MOUTH_WIDTH_THRESHOLD]
      norm_num
    rcases hlist : smileIndicators s n with _ | ⟨b0, _ | ⟨b1, rest⟩⟩
    · simp [smileIndicators] at hlist
    · simp [smileIndicators] at hlist
    · rw [hlist] at h0 hind
      simp at h0 hind
      subst h0; subst hind
      simp

/-- C9 witness: `smileLive` against `neutralSig` has mouth-width ratio 1.1,
a true corner-lift indicator, and is classified smiling. -/
theorem detectSmile_score_and_or_rule_witness :
    (detectSmile smileLive neutralSig).isSmiling = true :=
  (detectSmile_score_and_or_rule smileLive neutralSig).2.2.2.2 (by decide) (by decide)

/-! ## Signal extractor lemmas -/

/-- The distance from a landmark to itself is zero. -/
theorem dist2D_self (a : Landmark) : dist2D a a = 0 := by
  simp [dist2D]

/-- Evaluation of `computeSignals` once all fourteen landmark fetches are
known to succeed: the soft `none` on zero face width, otherwise the signal
record, with every let-binding of the source expanded. -/
theorem computeSignals_eq_of_fetches (lms : List Landmark)
    (h0 : ¬ lms.length = 0)
    (lEdge rEdge leftEyeTop leftEyeBottom rightEyeTop rightEyeBottom
      leftInnerBrow rightInnerBrow leftMouthCorner rightMouthCorner
      upperLipCenter leftCheek rightCheek noseBridge : Landmark)
    (e1 : lms[(234:ℕ)]? = some lEdge) (e2 : lms[(454:ℕ)]? = some rEdge)
    (e3 : lms[(159:ℕ)]? = some leftEyeTop) (e4 : lms[(145:ℕ)]? = some leftEyeBottom)
    (e5 : lms[(386:ℕ)]? = some rightEyeTop) (e6 : lms[(374:ℕ)]? = some rightEyeBottom)
    (e7 : lms[(107:ℕ)]? = some leftInnerBrow) (e8 : lms[(336:ℕ)]? = some rightInnerBrow)
    (e9 : lms[(61:ℕ)]? = some leftMouthCorner) (e10 : lms[(291:ℕ)]? = some rightMouthCorner)
    (e11 : lms[(13:ℕ)]? = some upperLipCenter) (e12 : lms[(50:ℕ)]? = some leftCheek)
    (e13 : lms[(280:ℕ)]? = some rightCheek) (e14 : lms[(6:ℕ)]? = some noseBridge) :
    computeSignals lms =
      if dist2D lEdge rEdge = 0 then Except.ok none
      else Except.ok (some
        { eyeOpenAvg := (dist2D leftEyeTop leftEyeBottom / dist2D lEdge rEdge +
            dist2D rightEyeTop rightEyeBottom / dist2D lEdge rEdge) / 2
          browInnerDist := dist2D leftInnerBrow rightInnerBrow / dist2D lEdge rEdge
          mouthWidth := dist2D leftMouthCorner rightMouthCorner / dist2D lEdge rEdge
          mouthCornerLift := ((upperLipCenter.y - leftMouthCorner.y) +
            (upperLipCenter.y - rightMouthCorner.y)) / 2 / dist2D lEdge rEdge
          cheekRaise := (dist2D leftMouthCorner leftCheek +
            dist2D rightMouthCorner rightCheek) / 2 / dist2D lEdge rEdge
          headRotation :=
            ((if |rEdge.x - noseBridge.x| > 0 then
                |noseBridge.x - lEdge.x| / |rEdge.x - noseBridge.x| else 1) - 1) /
            ((if |rEdge.x - noseBridge.x| > 0 then
                |noseBridge.x - lEdge.x| / |rEdge.x - noseBridge.x| else 1) + 1) }) := by
  unfold computeSignals
  simp only [FACE_LM]
  rw [if_neg h0, e1, e2, e3, e4, e5, e6, e7, e8, e9, e10, e11, e12, e13, e14]

/-- Any non-empty landmark list shorter than 455 entries makes the
extractor index past the end of the list. -/
theorem computeSignals_error_of_short (lms : List Landmark)
    (h1 : lms ≠ []) (h2 : lms.length < 455) :
    computeSignals lms = Except.error () := by
  have h0 : ¬ lms.length = 0 := by simpa [List.length_eq_zero] using h1
  have h454 : lms[(454:ℕ)]? = none := List.getElem?_eq_none (by omega)
  unfold computeSignals
  simp only [FACE_LM]
  rw [if_neg h0, h454]
  rcases h234 : lms[(234:ℕ)]? with _ | a <;> rfl

/-- A list with at least 455 landmarks always produces a soft result. -/
theorem computeSignals_ok_of_long (lms : List Landmark) (h : 455 ≤ lms.length) :
    ∃ r, computeSignals lms = Except.ok r := by
  have h0 : ¬ lms.length = 0 := by omega
  obtain ⟨a1, e1⟩ : ∃ a, lms[(234:ℕ)]? = some a := ⟨_, List.getElem?_eq_getElem (by omega)⟩
  obtain ⟨a2, e2⟩ : ∃ a, lms[(454:ℕ)]? = some a := ⟨_, List.getElem?_eq_getElem (by omega)⟩
  obtain ⟨a3, e3⟩ : ∃ a, lms[(159:ℕ)]? = some a := ⟨_, List.getElem?_eq_getElem (by omega)⟩
  obtain ⟨a4, e4⟩ : ∃ a, lms[(145:ℕ)]? = some a := ⟨_, List.getElem?_eq_getElem (by omega)⟩
  obtain ⟨a5, e5⟩ : ∃ a, lms[(386:ℕ)]? = some a := ⟨_, List.getElem?_eq_getElem (by omega)⟩
  obtain ⟨a6, e6⟩ : ∃ a, lms[(374:ℕ)]? = some a := ⟨_, List.getElem?_eq_getElem (by omega)⟩
  obtain ⟨a7, e7⟩ : ∃ a, lms[(107:ℕ)]? = some a := ⟨_, List.getElem?_eq_getElem (by omega)⟩
  obtain ⟨a8, e8⟩ : ∃ a, lms[(336:ℕ)]? = some a := ⟨_, List.getElem?_eq_getElem (by omega)⟩
  obtain ⟨a9, e9⟩ : ∃ a, lms[(61:ℕ)]? = some a := ⟨_, List.getElem?_eq_getElem (by omega)⟩
  obtain ⟨a10, e10⟩ : ∃ a, lms[(291:ℕ)]? = some a := ⟨_, List.getElem?_eq_getElem (by omega)⟩
  obtain ⟨a11, e11⟩ : ∃ a, lms[(13:ℕ)]? = some a := ⟨_, List.getElem?_eq_getElem (by omega)⟩
  obtain ⟨a12, e12⟩ : ∃ a, lms[(50:ℕ)]? = some a := ⟨_, List.getElem?_eq_getElem (by omega)⟩
  obtain ⟨a13, e13⟩ : ∃ a, lms[(280:ℕ)]? = some a := ⟨_, List.getElem?_eq_getElem (by omega)⟩
  obtain ⟨a14, e14⟩ : ∃ a, lms[(6:ℕ)]? = some a := ⟨_, List.getElem?_eq_getElem (by omega)⟩
  rw [computeSignals_eq_of_fetches lms h0 a1 a2 a3 a4 a5 a6 a7 a8 a9 a10 a11 a12 a13 a14
    e1 e2 e3 e4 e5 e6 e7 e8 e9 e10 e11 e12 e13 e14]
  by_cases hd : dist2D a1 a2 = 0
  · exact ⟨none, by rw [if_pos hd]⟩
  · exact ⟨_, by rw [if_neg hd]⟩

/-! ## Claim C10 -/

/-- C10: the extractor has no bounds check beyond non-emptiness; every
non-empty list with fewer than 455 landmarks hits an out-of-range fixed
index (modelled as `Except.error`), while every list with at least 455
landmarks reaches the normal signal-or-none result. -/
theorem computeSignals_index_requirement (lms : List Landmark) :
    (lms ≠ [] → lms.length < 455 → computeSignals lms = Except.error ()) ∧
    (455 ≤ lms.length → ∃ r, computeSignals lms = Except.ok r) :=
  ⟨computeSignals_error_of_short lms, computeSignals_ok_of_long lms⟩

/-- C10 witness: a single landmark crashes the extractor. -/
theorem computeSignals_index_requirement_witness :
    computeSignals [ptOne] = Except.error () :=
  (computeSignals_index_requirement [ptOne]).1 (by simp) (by simp)

/-! ## Claim C6 -/

/-- C6 counterexample: the claim quantifies over every landmark list and
asserts extraction never errors, but the non-empty one-landmark list makes
the extractor index out of range instead of returning the soft result. -/
theorem computeSignals_short_list_error :
    computeSignals [ptZero] = Except.error () ∧ ([ptZero] : List Landmark) ≠ [] :=
  ⟨computeSignals_error_of_short [ptZero] (by simp) (by simp), by simp⟩

/-- C6 amended: restricted to the empty list or full landmark sets (at
least 455 entries), extraction always yields a soft result, returns "no
signal" exactly when the list is empty or the distance between the left and
right face-edge landmarks is zero, and in particular returns "no signal"
whenever those two landmarks are equal. -/
theorem computeSignals_soft_none_iff (lms : List Landmark)
    (h : lms = [] ∨ 455 ≤ lms.length) :
    (∃ r, computeSignals lms = Except.ok r) ∧
    (lms = [] → computeSignals lms = Except.ok none) ∧
    (∀ a b, lms[FACE_LM.leftFaceEdge]? = some a → lms[FACE_LM.rightFaceEdge]? = some b →
      (computeSignals lms = Except.ok none ↔ dist2D a b = 0)) ∧
    (∀ a, lms[FACE_LM.leftFaceEdge]? = some a → lms[FACE_LM.rightFaceEdge]? = some a →
      computeSignals lms = Except.ok none) := by
  rcases h with rfl | h455
  · refine ⟨⟨none, rfl⟩, fun _ => rfl, ?_, ?_⟩
    · intro a b ha
      simp at ha
    · intro a ha
      simp at ha
  · have h0 : ¬ lms.length = 0 := by omega
    obtain ⟨a1, e1⟩ : ∃ a, lms[(234:ℕ)]? = some a := ⟨_, List.getElem?_eq_getElem (by omega)⟩
    obtain ⟨a2, e2⟩ : ∃ a, lms[(454:ℕ)]? = some a := ⟨_, List.getElem?_eq_getElem (by omega)⟩
    obtain ⟨a3, e3⟩ : ∃ a, lms[(159:ℕ)]? = some a := ⟨_, List.getElem?_eq_getElem (by omega)⟩
    obtain ⟨a4, e4⟩ : ∃ a, lms[(145:ℕ)]? = some a := ⟨_, List.getElem?_eq_getElem (by omega)⟩
    obtain ⟨a5, e5⟩ : ∃ a, lms[(386:ℕ)]? = some a := ⟨_, List.getElem?_eq_getElem (by omega)⟩
    obtain ⟨a6, e6⟩ : ∃ a, lms[(374:ℕ)]? = some a := ⟨_, List.getElem?_eq_getElem (by omega)⟩
    obtain ⟨a7, e7⟩ : ∃ a, lms[(107:ℕ)]? = some a := ⟨_, List.getElem?_eq_getElem (by omega)⟩
    obtain ⟨a8, e8⟩ : ∃ a, lms[(336:ℕ)]? = some a := ⟨_, List.getElem?_eq_getElem (by omega)⟩
    obtain ⟨a9, e9⟩ : ∃ a, lms[(61:ℕ)]? = some a := ⟨_, List.getElem?_eq_getElem (by omega)⟩
    obtain ⟨a10, e10⟩ : ∃ a, lms[(291:ℕ)]? = some a := ⟨_, List.getElem?_eq_getElem (by omega)⟩
    obtain ⟨a11, e11⟩ : ∃ a, lms[(13:ℕ)]? = some a := ⟨_, List.getElem?_eq_getElem (by omega)⟩
    obtain ⟨a12, e12⟩ : ∃ a, lms[(50:ℕ)]? = some a := ⟨_, List.getElem?_eq_getElem (by omega)⟩
    obtain ⟨a13, e13⟩ : ∃ a, lms[(280:ℕ)]? = some a := ⟨_, List.getElem?_eq_getElem (by omega)⟩
    obtain ⟨a14, e14⟩ : ∃ a, lms[(6:ℕ)]? = some a := ⟨_, List.getElem?_eq_getElem (by omega)⟩
    have key := computeSignals_eq_of_fetches lms h0 a1 a2 a3 a4 a5 a6 a7 a8 a9 a10 a11 a12 a13 a14
      e1 e2 e3 e4 e5 e6 e7 e8 e9 e10 e11 e12 e13 e14
    refine ⟨computeSignals_ok_of_long lms h455, ?_, ?_, ?_⟩
    · intro he
      rw [he] at h455
      simp at h455
    · intro a b ha hb
      simp only [FACE_LM] at ha hb
      rw [e1] at ha
      rw [e2] at hb
      have hea : a1 = a := Option.some.inj ha
      have heb : a2 = b := Option.some.inj hb
      rw [key, hea, heb]
      by_cases hd : dist2D a b = 0
      · simp [hd]
      · simp [hd]
    · intro a ha hb
      simp only [FACE_LM] at ha hb
      rw [e1] at ha
      rw [e2] at hb
      have hea : a1 = a := Option.some.inj ha
      have heb : a2 = a := Option.some.inj hb
      rw [key, hea, heb, if_pos (dist2D_self a)]

/-- C6 witness: 455 copies of one landmark give face width zero, hence the
soft "no signal" result. -/
theorem computeSignals_soft_none_iff_witness :
    computeSignals (List.replicate 455 ptZero) = Except.ok none :=
  (computeSignals_soft_none_iff (List.replicate 455 ptZero) (Or.inr (by simp))).2.2.2
    ptZero (by simp [FACE_LM]) (by simp [FACE_LM])

/-! ## Claim C7 -/

/-- Bounds for the head-rotation formula: for nonnegative `nl`, `nr` the
value lies in [-1, 1) and is zero when `nl = nr`. -/
theorem headRotationAux_bounds (nl nr : ℝ) (hnl : 0 ≤ nl) (hnr : 0 ≤ nr) :
    -1 ≤ ((if nr > 0 then nl / nr else 1) - 1) / ((if nr > 0 then nl / nr else 1) + 1) ∧
    ((if nr > 0 then nl / nr else 1) - 1) / ((if nr > 0 then nl / nr else 1) + 1) < 1 ∧
    (nl = nr → ((if nr > 0 then nl / nr else 1) - 1) /
      ((if nr > 0 then nl / nr else 1) + 1) = 0) := by
  set a := if nr > 0 then nl / nr else 1 with ha
  have ha0 : 0 ≤ a := by
    rw [ha]
    split
    · exact div_nonneg hnl hnr
    · exact zero_le_one
  have hpos : 0 < a + 1 := by linarith
  refine ⟨?_, ?_, ?_⟩
  · rw [le_div_iff₀ hpos]
    linarith
  · rw [div_lt_one hpos]
    linarith
  · intro heq
    by_cases hnr0 : nr > 0
    · have h1 : a = 1 := by rw [ha, if_pos hnr0, heq, div_self (ne_of_gt hnr0)]
      rw [h1]
      norm_num
    · have h1 : a = 1 := by rw [ha, if_neg hnr0]
      rw [h1]
      norm_num

/-- C7 amended: whenever extraction produces a signal, its head rotation is
the source formula over the nose-bridge and face-edge landmarks, is zero on
a symmetric face, and lies in the half-open interval [-1, 1): the lower
endpoint -1 is attained (see the counterexample), the upper bound is
strict. -/
theorem headRotation_formula_and_bounds (lms : List Landmark) (s : Signals ℝ)
    (h : computeSignals lms = Except.ok (some s)) :
    (∃ nb le re, lms[FACE_LM.noseBridge]? = some nb ∧
      lms[FACE_LM.leftFaceEdge]? = some le ∧ lms[FACE_LM.rightFaceEdge]? = some re ∧
      s.headRotation =
        ((if |re.x - nb.x| > 0 then |nb.x - le.x| / |re.x - nb.x| else 1) - 1) /
        ((if |re.x - nb.x| > 0 then |nb.x - le.x| / |re.x - nb.x| else 1) + 1) ∧
      (|nb.x - le.x| = |re.x - nb.x| → s.headRotation = 0)) ∧
    -1 ≤ s.headRotation ∧ s.headRotation < 1 := by
  have hlen : 455 ≤ lms.length := by
    by_contra hcon
    push_neg at hcon
    rcases eq_or_ne lms [] with rfl | hne
    · rw [show computeSignals [] = Except.ok none from rfl] at h
      simp at h
    · rw [computeSignals_error_of_short lms hne hcon] at h
      simp at h
  have h0 : ¬ lms.length = 0 := by omega
  obtain ⟨a1, e1⟩ : ∃ a, lms[(234:ℕ)]? = some a := ⟨_, List.getElem?_eq_getElem (by omega)⟩
  obtain ⟨a2, e2⟩ : ∃ a, lms[(454:ℕ)]? = some a := ⟨_, List.getElem?_eq_getElem (by omega)⟩
  obtain ⟨a3, e3⟩ : ∃ a, lms[(159:ℕ)]? = some a := ⟨_, List.getElem?_eq_getElem (by omega)⟩
  obtain ⟨a4, e4⟩ : ∃ a, lms[(145:ℕ)]? = some a := ⟨_, List.getElem?_eq_getElem (by omega)⟩
  obtain ⟨a5, e5⟩ : ∃ a, lms[(386:ℕ)]? = some a := ⟨_, List.getElem?_eq_getElem (by omega)⟩
  obtain ⟨a6, e6⟩ : ∃ a, lms[(374:ℕ)]? = some a := ⟨_, List.getElem?_eq_getElem (by omega)⟩
  obtain ⟨a7, e7⟩ : ∃ a, lms[(107:ℕ)]? = some a := ⟨_, List.getElem?_eq_getElem (by omega)⟩
  obtain ⟨a8, e8⟩ : ∃ a, lms[(336:ℕ)]? = some a := ⟨_, List.getElem?_eq_getElem (by omega)⟩
  obtain ⟨a9, e9⟩ : ∃ a, lms[(61:ℕ)]? = some a := ⟨_, List.getElem?_eq_getElem (by omega)⟩
  obtain ⟨a10, e10⟩ : ∃ a, lms[(291:ℕ)]? = some a := ⟨_, List.getElem?_eq_getElem (by omega)⟩
  obtain ⟨a11, e11⟩ : ∃ a, lms[(13:ℕ)]? = some a := ⟨_, List.getElem?_eq_getElem (by omega)⟩
  obtain ⟨a12, e12⟩ : ∃ a, lms[(50:ℕ)]? = some a := ⟨_, List.getElem?_eq_getElem (by omega)⟩
  obtain ⟨a13, e13⟩ : ∃ a, lms[(280:ℕ)]? = some a := ⟨_, List.getElem?_eq_getElem (by omega)⟩
  obtain ⟨a14, e14⟩ : ∃ a, lms[(6:ℕ)]? = some a := ⟨_, List.getElem?_eq_getElem (by omega)⟩
  rw [computeSignals_eq_of_fetches lms h0 a1 a2 a3 a4 a5 a6 a7 a8 a9 a10 a11 a12 a13 a14
    e1 e2 e3 e4 e5 e6 e7 e8 e9 e10 e11 e12 e13 e14] at h
  by_cases hd : dist2D a1 a2 = 0
  · rw [if_pos hd] at h
    simp at h
  · rw [if_neg hd] at h
    simp only [Except.ok.injEq, Option.some.injEq] at h
    subst h
    have hb := headRotationAux_bounds (|a14.x - a1.x|) (|a2.x - a14.x|)
      (abs_nonneg _) (abs_nonneg _)
    exact ⟨⟨a14, a1, a2, e14, e1, e2, rfl, fun heq => hb.2.2 heq⟩, hb.1, hb.2.1⟩

/-- Evaluation of the extractor on the head-rotation counterexample list. -/
theorem computeSignals_headCex :
    computeSignals headCexList = Except.ok (some headCexSignals) := by
  have hlen0 : ¬ headCexList.length = 0 := by simp [headCexList]
  have hfetch : ∀ i : ℕ, i < 454 → headCexList[i]? = some ptZero := by
    intro i hi
    rw [headCexList, List.getElem?_append_left (by simp [hi]),
      List.getElem?_replicate_of_lt hi]
  have h454 : headCexList[(454:ℕ)]? = some ptOne := by
    rw [headCexList, List.getElem?_append_right (by simp)]
    simp
  rw [computeSignals_eq_of_fetches headCexList hlen0
    ptZero ptOne ptZero ptZero ptZero ptZero ptZero ptZero ptZero ptZero ptZero ptZero
    ptZero ptZero
    (hfetch 234 (by norm_num)) h454 (hfetch 159 (by norm_num)) (hfetch 145 (by norm_num))
    (hfetch 386 (by norm_num)) (hfetch 374 (by norm_num)) (hfetch 107 (by norm_num))
    (hfetch 336 (by norm_num)) (hfetch 61 (by norm_num)) (hfetch 291 (by norm_num))
    (hfetch 13 (by norm_num)) (hfetch 50 (by norm_num)) (hfetch 280 (by norm_num))
    (hfetch 6 (by norm_num))]
  have hd : dist2D ptZero ptOne = 1 := by
    rw [dist2D]
    norm_num [ptZero, ptOne]
  rw [hd, if_neg one_ne_zero]
  simp only [headCexSignals, Except.ok.injEq, Option.some.injEq, Signals.mk.injEq]
  norm_num [dist2D_self, ptZero, ptOne]

/-- C7 counterexample: on `headCexList` the extractor produces a signal
whose head rotation is exactly -1, so the value does not lie strictly
inside the open interval (-1, 1). -/
theorem headRotation_attains_neg_one :
    computeSignals headCexList = Except.ok (some headCexSignals) ∧
    ¬(-1 < headCexSignals.headRotation) :=
  ⟨computeSignals_headCex, by norm_num [headCexSignals]⟩

/-- C7 witness: the amended bounds applied to the concrete extracted
signal. -/
theorem headRotation_formula_and_bounds_witness :
    -1 ≤ headCexSignals.headRotation ∧ headCexSignals.headRotation < 1 :=
  ⟨(headRotation_formula_and_bounds headCexList headCexSignals computeSignals_headCex).2.1,
   (headRotation_formula_and_bounds headCexList headCexSignals computeSignals_headCex).2.2⟩

end FaceTension
